import Mathlib

/-!
Shallow embedding of the multiplayer-room backend of the diabloweb repository
(src/server/index.js, Express + Socket.IO routes under /api/multiplayer).

The embedding models the four room routes exactly as the JavaScript executes
them in a single-threaded event-loop run:

* `POST /api/multiplayer/rooms`        → `createRoom`
* `POST /api/multiplayer/rooms/join`   → `joinRoom`
* `POST /api/multiplayer/rooms/leave`  → `leaveRoom`
* `GET  /api/multiplayer/rooms`        → `listRooms`

MongoDB's room collection is a list of rooms; ObjectId generation is a
counter (`nextId`); `Date.now` is a monotone counter (`clock`).  JavaScript
falsy-defaulting (`x || d`) on optional numeric/string fields is made
explicit by `jsOrInt` / `jsOrStr` / `jsTruthyStr`.  Mongoose's
`.select(-password)` projection is `stripPassword`.  Each route returns the
new server state, the list of Socket.IO events it emitted, and its HTTP
response (`Except ApiError`); early-returning error paths leave the state
untouched and emit nothing, exactly as the source does.
-/

namespace DiabloWeb

/-- A registered user, as far as the room routes consult the users
collection: `User.findById(req.user.userId)` reads only `_id` and
`username` (src/server/index.js line 314, 327). -/
structure JsUser where
  id : String
  username : String
deriving Repr, DecidableEq

/-- One entry of a room's `players` array
(MultiplayerRoomSchema, src/server/index.js lines 53-59). -/
structure Player where
  userId : String
  playerName : String
  characterClass : String
  level : Int
  joinedAt : Nat
deriving Repr, DecidableEq

/-- The `status` enum of MultiplayerRoomSchema (line 62). -/
inductive RoomStatus where
  | waiting
  | inGame
  | closed
deriving Repr, DecidableEq

/-- A document of the `multiplayerrooms` collection
(MultiplayerRoomSchema, src/server/index.js lines 50-65).  `password` is
`none` when the field is absent (mongoose stores `undefined` as no field). -/
structure Room where
  id : Nat
  name : String
  host : String
  players : List Player
  maxPlayers : Int
  isPublic : Bool
  password : Option String
  status : RoomStatus
  createdAt : Nat
deriving Repr, DecidableEq

/-- The server's room-related mutable state: the room collection, the
ObjectId generator and the `Date.now` clock. -/
structure ServerState where
  rooms : List Room
  nextId : Nat
  clock : Nat
deriving Repr, DecidableEq

/-- Empty registry at process start. -/
def initState : ServerState := { rooms := [], nextId := 0, clock := 0 }

/-- The caller-visible error responses of the multiplayer routes, one
constructor per distinct error return in src/server/index.js. -/
inductive ApiError where
  | validationError   -- 400, missing required body field
  | userNotFound      -- 404 "User not found"
  | notFound          -- 404 "Room not found"
  | invalidState      -- 400 "Room is not accepting players"
  | roomFull          -- 400 "Room is full"
  | unauthorized      -- 401 "Invalid room password"
  | alreadyJoined     -- 400 "Already in room"
deriving Repr, DecidableEq

/-- Socket.IO emissions of the room routes: `io.emit` for the global
`room-created` / `room-closed`, `io.to(roomId).emit` for the room-scoped
`player-joined` / `player-left`.  Each carries the JSON payload serialized
by the source at that emit site. -/
inductive Event where
  | roomCreated (payload : Room)
  | playerJoined (roomId : Nat) (payload : Room)
  | playerLeft (roomId : Nat) (payload : Room)
  | roomClosed (roomId : Nat)
deriving Repr, DecidableEq

/-- JavaScript `v || d` for an optional number field (`0`, like absence,
is falsy and takes the default). -/
def jsOrInt (v : Option Int) (d : Int) : Int :=
  match v with
  | none => d
  | some n => if n = 0 then d else n

/-- JavaScript `v || d` for an optional string field (the empty string,
like absence, is falsy and takes the default). -/
def jsOrStr (v : Option String) (d : String) : String :=
  match v with
  | none => d
  | some s => if s = "" then d else s

/-- JavaScript `password || undefined` (line 324): an absent or empty
password is stored as no field at all. -/
def jsTruthyStr (v : Option String) : Option String :=
  match v with
  | none => none
  | some s => if s = "" then none else some s

/-- Mongoose `.select(-password)`: the serialized snapshot without the
`password` field (lines 296, 337, 392). -/
def stripPassword (r : Room) : Room := { r with password := none }

/-- Lookup `MultiplayerRoom.findById(roomId)` over the embedded collection. -/
def findRoom (st : ServerState) (roomId : Nat) : Option Room :=
  st.rooms.find? (fun r => r.id == roomId)

/-- Request body of `POST /api/multiplayer/rooms` (line 308 plus the
`req.body.playerName` / `characterClass` / `level` reads at 327-329).
`none` is an absent field. -/
structure CreateBody where
  name : String
  maxPlayers : Option Int
  isPublic : Option Bool
  password : Option String
  playerName : Option String
  characterClass : Option String
  level : Option Int
deriving Repr, DecidableEq

/-- Route `POST /api/multiplayer/rooms` (src/server/index.js lines 306-345).
Validation: only `if (!name)`; then `User.findById`; then the room is
built with the falsy defaults of lines 319-331 (`maxPlayers || 4`,
`isPublic !== false`, `password || undefined`, seeded creator member),
saved, re-fetched with `.select(-password)`, emitted unconditionally as
`room-created` (line 339) and returned. -/
def createRoom (users : List JsUser) (st : ServerState) (userId : String)
    (b : CreateBody) : ServerState × List Event × Except ApiError Room :=
  if b.name = "" then (st, [], Except.error ApiError.validationError) else
  match users.find? (fun u => u.id == userId) with
  | none => (st, [], Except.error ApiError.userNotFound)
  | some user =>
    let room : Room :=
      { id := st.nextId
        name := b.name
        host := userId
        players := [{ userId := userId
                      playerName := jsOrStr b.playerName user.username
                      characterClass := jsOrStr b.characterClass "Warrior"
                      level := jsOrInt b.level 1
                      joinedAt := st.clock }]
        maxPlayers := jsOrInt b.maxPlayers 4
        isPublic := b.isPublic != some false
        password := jsTruthyStr b.password
        status := RoomStatus.waiting
        createdAt := st.clock }
    let populated := stripPassword room
    ({ rooms := st.rooms ++ [room], nextId := st.nextId + 1, clock := st.clock + 1 },
     [Event.roomCreated populated], Except.ok populated)

/-- The password gate of the join route, line 368:
`if (room.password && room.password !== password)`.  An absent or empty
stored password is falsy, so the gate never fires for it. -/
def roomPasswordBlocks (stored supplied : Option String) : Bool :=
  match stored with
  | none => false
  | some s => if s = "" then false else supplied != some s

/-- Route `POST /api/multiplayer/rooms/join` (src/server/index.js lines 347-400).
Checks in source order: body validation, `findById`, status, capacity,
password, already-joined; then pushes the new player (falsy defaults of
lines 384-385), saves, re-fetches with `.select(-password)` and emits
`player-joined` to the room. -/
def joinRoom (st : ServerState) (userId : String) (roomId : Nat)
    (playerName : String) (characterClass : Option String) (level : Option Int)
    (password : Option String) : ServerState × List Event × Except ApiError Room :=
  if playerName = "" then (st, [], Except.error ApiError.validationError) else
  match findRoom st roomId with
  | none => (st, [], Except.error ApiError.notFound)
  | some room =>
    if room.status ≠ RoomStatus.waiting then
      (st, [], Except.error ApiError.invalidState)
    else if (room.players.length : Int) ≥ room.maxPlayers then
      (st, [], Except.error ApiError.roomFull)
    else if roomPasswordBlocks room.password password then
      (st, [], Except.error ApiError.unauthorized)
    else if room.players.any (fun p => p.userId == userId) then
      (st, [], Except.error ApiError.alreadyJoined)
    else
      let newPlayer : Player :=
        { userId := userId
          playerName := playerName
          characterClass := jsOrStr characterClass "Warrior"
          level := jsOrInt level 1
          joinedAt := st.clock }
      let updated := { room with players := room.players ++ [newPlayer] }
      let populated := stripPassword updated
      ({ st with
          rooms := st.rooms.map (fun r => if r.id == roomId then updated else r),
          clock := st.clock + 1 },
       [Event.playerJoined roomId populated], Except.ok populated)

/-- Route `POST /api/multiplayer/rooms/leave` (src/server/index.js lines 402-433).
Filters the caller out of `players`; if the result is empty the room is
deleted (`findByIdAndDelete`) and one global `room-closed` is emitted with
the id; otherwise the host is reassigned to `players[0]` when the host
left, the room is saved, and the RAW room document — password field
included, no `.select(-password)` here — is emitted as `player-left`
(line 425). -/
def leaveRoom (st : ServerState) (userId : String) (roomId : Nat) :
    ServerState × List Event × Except ApiError Unit :=
  match findRoom st roomId with
  | none => (st, [], Except.error ApiError.notFound)
  | some room =>
    match room.players.filter (fun p => p.userId != userId) with
    | [] =>
      ({ st with
          rooms := st.rooms.filter (fun r => r.id != roomId),
          clock := st.clock + 1 },
       [Event.roomClosed roomId], Except.ok ())
    | first :: rest =>
      let updated := { room with
        players := first :: rest,
        host := if room.host == userId then first.userId else room.host }
      ({ st with
          rooms := st.rooms.map (fun r => if r.id == roomId then updated else r),
          clock := st.clock + 1 },
       [Event.playerLeft roomId updated], Except.ok ())

/-- Insertion into a list kept sorted by `createdAt` descending. -/
def insertByCreatedAtDesc (r : Room) : List Room → List Room
  | [] => [r]
  | x :: xs =>
    if x.createdAt ≤ r.createdAt then r :: x :: xs
    else x :: insertByCreatedAtDesc r xs

/-- Mongo `.sort(\x7b createdAt: -1 \x7d)`. -/
def sortByCreatedAtDesc (rs : List Room) : List Room :=
  rs.foldr insertByCreatedAtDesc []

/-- Route `GET /api/multiplayer/rooms` (src/server/index.js lines 289-304): all
waiting public rooms, password stripped by `.select(-password)`, newest
first. -/
def listRooms (st : ServerState) : List Room :=
  (sortByCreatedAtDesc
      (st.rooms.filter (fun r => r.status == RoomStatus.waiting && r.isPublic))).map
    stripPassword

/-- A client action against the room routes, for reachability statements. -/
inductive Op where
  | create (userId : String) (b : CreateBody)
  | join (userId : String) (roomId : Nat) (playerName : String)
      (characterClass : Option String) (level : Option Int)
      (password : Option String)
  | leave (userId : String) (roomId : Nat)
deriving Repr, DecidableEq

/-- The state transition of one action (errors leave the state unchanged,
as each route returns before mutating on its error paths). -/
def applyOp (users : List JsUser) (st : ServerState) : Op → ServerState
  | Op.create uid b => (createRoom users st uid b).1
  | Op.join uid rid pn cc lv pw => (joinRoom st uid rid pn cc lv pw).1
  | Op.leave uid rid => (leaveRoom st uid rid).1

/-- The server state after a sequence of actions from process start. -/
def run (users : List JsUser) (ops : List Op) : ServerState :=
  ops.foldl (applyOp users) initState

/-! ### Structural invariants of reachable states -/

/-- The `players` array is in strictly increasing `joinedAt` order (players
are only ever appended, and the clock advances between operations). -/
def playersOrdered (ps : List Player) : Prop :=
  ps.Pairwise (fun p q => p.joinedAt < q.joinedAt)

/-- Well-formedness of one stored room relative to the current clock:
non-empty membership, host present among the members, members in strict
join order, and all join stamps in the past. -/
def RoomWF (clock : Nat) (r : Room) : Prop :=
  r.players ≠ [] ∧
  (∃ p ∈ r.players, p.userId = r.host) ∧
  playersOrdered r.players ∧
  ∀ p ∈ r.players, p.joinedAt < clock

/-- Every registered room is well-formed. -/
def StateWF (st : ServerState) : Prop :=
  ∀ r ∈ st.rooms, RoomWF st.clock r

/-- Capacity bound of one stored room. -/
def RoomCap (r : Room) : Prop :=
  (r.players.length : Int) ≤ r.maxPlayers

/-- Every registered room respects its capacity. -/
def StateCap (st : ServerState) : Prop :=
  ∀ r ∈ st.rooms, RoomCap r

/-- An action whose effective capacity is positive: the create route does
not validate `maxPlayers`, so the capacity invariant only holds along runs
whose creates have `maxPlayers || 4 ≥ 1`. -/
def opCapOK : Op → Bool
  | Op.create _ b => decide (1 ≤ jsOrInt b.maxPlayers 4)
  | _ => true

theorem roomWF_mono {c c2 : Nat} (hc : c ≤ c2) {r : Room} (h : RoomWF c r) :
    RoomWF c2 r := by
  obtain ⟨h1, h2, h3, h4⟩ := h
  exact ⟨h1, h2, h3, fun p hp => Nat.lt_of_lt_of_le (h4 p hp) hc⟩

theorem stateWF_init : StateWF initState := by
  intro r hr
  simp [initState] at hr

theorem stateCap_init : StateCap initState := by
  intro r hr
  simp [initState] at hr

theorem stateWF_createRoom (users : List JsUser) (st : ServerState)
    (uid : String) (b : CreateBody) (h : StateWF st) :
    StateWF (createRoom users st uid b).1 := by
  unfold createRoom
  split
  · exact h
  · split
    · exact h
    · intro r hr
      simp only at hr
      rcases List.mem_append.mp hr with hold | hnew
      · exact roomWF_mono (Nat.le_succ _) (h r hold)
      · rcases List.mem_singleton.mp hnew with rfl
        refine ⟨by simp, ⟨_, List.mem_singleton.mpr rfl, rfl⟩, ?_, ?_⟩
        · exact List.pairwise_singleton _ _
        · intro p hp
          rcases List.mem_singleton.mp hp with rfl
          exact Nat.lt_succ_self _

theorem stateWF_joinRoom (st : ServerState) (uid : String) (rid : Nat)
    (pn : String) (cc : Option String) (lv : Option Int) (pw : Option String)
    (h : StateWF st) : StateWF (joinRoom st uid rid pn cc lv pw).1 := by
  unfold joinRoom
  split
  · exact h
  split
  · exact h
  rename_i room hfind
  split
  · exact h
  split
  · exact h
  split
  · exact h
  split
  · exact h
  intro r hr
  dsimp only at hr
  rcases List.mem_map.mp hr with ⟨a, ha, hra⟩
  by_cases hid : (a.id == rid) = true
  · rw [if_pos hid] at hra
    subst hra
    have hroom : room ∈ st.rooms := List.mem_of_find?_eq_some hfind
    obtain ⟨h1, ⟨p, hp, hpu⟩, h3, h4⟩ := h room hroom
    refine ⟨by simp, ⟨p, List.mem_append.mpr (Or.inl hp), hpu⟩, ?_, ?_⟩
    · refine List.pairwise_append.mpr ⟨h3, List.pairwise_singleton _ _, ?_⟩
      intro x hx y hy
      rcases List.mem_singleton.mp hy with rfl
      exact h4 x hx
    · intro q hq
      rcases List.mem_append.mp hq with h5 | h5
      · exact Nat.lt_succ_of_lt (h4 q h5)
      · rcases List.mem_singleton.mp h5 with rfl
        exact Nat.lt_succ_self _
  · rw [if_neg hid] at hra
    subst hra
    exact roomWF_mono (Nat.le_succ _) (h a ha)

theorem stateWF_leaveRoom (st : ServerState) (uid : String) (rid : Nat)
    (h : StateWF st) : StateWF (leaveRoom st uid rid).1 := by
  unfold leaveRoom
  split
  · exact h
  rename_i room hfind
  split
  · intro r hr
    dsimp only at hr
    exact roomWF_mono (Nat.le_succ _) (h r (List.mem_of_mem_filter hr))
  rename_i first rest hfilter
  intro r hr
  dsimp only at hr
  rcases List.mem_map.mp hr with ⟨a, ha, hra⟩
  by_cases hid : (a.id == rid) = true
  · rw [if_pos hid] at hra
    subst hra
    have hroom : room ∈ st.rooms := List.mem_of_find?_eq_some hfind
    obtain ⟨h1, ⟨p, hp, hpu⟩, h3, h4⟩ := h room hroom
    refine ⟨by simp, ?_, ?_, ?_⟩
    · by_cases hh : (room.host == uid) = true
      · exact ⟨first, List.mem_cons_self _ _, by simp [hh]⟩
      · refine ⟨p, ?_, by simp [hh, hpu]⟩
        rw [← hfilter]
        refine List.mem_filter.mpr ⟨hp, ?_⟩
        have hne : room.host ≠ uid := by
          intro e
          exact hh (by rw [e]; exact beq_self_eq_true uid)
        simp [hpu, hne]
    · show playersOrdered (first :: rest)
      rw [← hfilter]
      exact h3.sublist (List.filter_sublist _)
    · intro q hq
      have hq2 : q ∈ room.players.filter (fun p => p.userId != uid) := by
        rw [hfilter]; exact hq
      exact Nat.lt_succ_of_lt (h4 q (List.mem_of_mem_filter hq2))
  · rw [if_neg hid] at hra
    subst hra
    exact roomWF_mono (Nat.le_succ _) (h a ha)

theorem stateCap_createRoom (users : List JsUser) (st : ServerState)
    (uid : String) (b : CreateBody) (h : StateCap st)
    (hb : 1 ≤ jsOrInt b.maxPlayers 4) :
    StateCap (createRoom users st uid b).1 := by
  unfold createRoom
  split
  · exact h
  split
  · exact h
  intro r hr
  dsimp only at hr
  rcases List.mem_append.mp hr with hold | hnew
  · exact h r hold
  · rcases List.mem_singleton.mp hnew with rfl
    show ((1 : Nat) : Int) ≤ jsOrInt b.maxPlayers 4
    exact_mod_cast hb

theorem stateCap_joinRoom (st : ServerState) (uid : String) (rid : Nat)
    (pn : String) (cc : Option String) (lv : Option Int) (pw : Option String)
    (h : StateCap st) : StateCap (joinRoom st uid rid pn cc lv pw).1 := by
  unfold joinRoom
  split
  · exact h
  split
  · exact h
  rename_i room hfind
  split
  · exact h
  split
  · exact h
  rename_i hfull
  split
  · exact h
  split
  · exact h
  intro r hr
  dsimp only at hr
  rcases List.mem_map.mp hr with ⟨a, ha, hra⟩
  by_cases hid : (a.id == rid) = true
  · rw [if_pos hid] at hra
    subst hra
    unfold RoomCap
    have hlt : (room.players.length : Int) < room.maxPlayers := lt_of_not_ge hfull
    simp only [List.length_append, List.length_singleton]
    push_cast
    omega
  · rw [if_neg hid] at hra
    subst hra
    exact h a ha

theorem stateCap_leaveRoom (st : ServerState) (uid : String) (rid : Nat)
    (h : StateCap st) : StateCap (leaveRoom st uid rid).1 := by
  unfold leaveRoom
  split
  · exact h
  rename_i room hfind
  split
  · intro r hr
    dsimp only at hr
    exact h r (List.mem_of_mem_filter hr)
  rename_i first rest hfilter
  intro r hr
  dsimp only at hr
  rcases List.mem_map.mp hr with ⟨a, ha, hra⟩
  by_cases hid : (a.id == rid) = true
  · rw [if_pos hid] at hra
    subst hra
    have hroom : room ∈ st.rooms := List.mem_of_find?_eq_some hfind
    have hcap : (room.players.length : Int) ≤ room.maxPlayers := h room hroom
    unfold RoomCap
    dsimp only
    have hlen : (first :: rest).length ≤ room.players.length := by
      rw [← hfilter]
      exact List.length_filter_le _ _
    have : ((first :: rest).length : Int) ≤ (room.players.length : Int) :=
      Int.ofNat_le.mpr hlen
    omega
  · rw [if_neg hid] at hra
    subst hra
    exact h a ha

theorem stateWF_applyOp (users : List JsUser) (st : ServerState) (op : Op)
    (h : StateWF st) : StateWF (applyOp users st op) := by
  cases op with
  | create uid b => exact stateWF_createRoom users st uid b h
  | join uid rid pn cc lv pw => exact stateWF_joinRoom st uid rid pn cc lv pw h
  | leave uid rid => exact stateWF_leaveRoom st uid rid h

theorem stateCap_applyOp (users : List JsUser) (st : ServerState) (op : Op)
    (h : StateCap st) (hop : opCapOK op = true) :
    StateCap (applyOp users st op) := by
  cases op with
  | create uid b =>
    exact stateCap_createRoom users st uid b h (of_decide_eq_true hop)
  | join uid rid pn cc lv pw => exact stateCap_joinRoom st uid rid pn cc lv pw h
  | leave uid rid => exact stateCap_leaveRoom st uid rid h

theorem stateWF_foldl (users : List JsUser) :
    ∀ (ops : List Op) (st : ServerState), StateWF st →
      StateWF (ops.foldl (applyOp users) st)
  | [], _, h => h
  | op :: ops, st, h =>
    stateWF_foldl users ops (applyOp users st op) (stateWF_applyOp users st op h)

theorem stateCap_foldl (users : List JsUser) :
    ∀ (ops : List Op) (st : ServerState), StateCap st →
      (∀ op ∈ ops, opCapOK op = true) →
      StateCap (ops.foldl (applyOp users) st)
  | [], _, h, _ => h
  | op :: ops, st, h, hops =>
    stateCap_foldl users ops (applyOp users st op)
      (stateCap_applyOp users st op h (hops op (List.mem_cons_self _ _)))
      (fun o ho => hops o (List.mem_cons_of_mem _ ho))

theorem stateWF_run (users : List JsUser) (ops : List Op) :
    StateWF (run users ops) :=
  stateWF_foldl users ops initState stateWF_init

theorem stateCap_run (users : List JsUser) (ops : List Op)
    (hops : ∀ op ∈ ops, opCapOK op = true) : StateCap (run users ops) :=
  stateCap_foldl users ops initState stateCap_init hops

/-- Updating one room in place (the effect of `room.save()` on the
collection) keeps `findById` pointing at the updated document. -/
theorem find?_map_update (rs : List Room) (rid : Nat) (u : Room)
    (hu : (u.id == rid) = true) (r : Room)
    (h : rs.find? (fun x => x.id == rid) = some r) :
    (rs.map (fun x => if x.id == rid then u else x)).find?
      (fun x => x.id == rid) = some u := by
  induction rs with
  | nil => simp [List.find?] at h
  | cons a as ih =>
    by_cases ha : (a.id == rid) = true
    · rw [List.map_cons, if_pos ha, List.find?_cons, hu]
    · have hfa : (a.id == rid) = false := by simpa using ha
      rw [List.map_cons, if_neg ha, List.find?_cons, hfa]
      rw [List.find?_cons, hfa] at h
      exact ih h

/-! ### Projections and concrete scenarios used by the claim witnesses -/

/-- Whether a route response is a success (2xx). -/
def respOk {α : Type} : Except ApiError α → Bool
  | Except.ok _ => true
  | Except.error _ => false

/-- The `password` field of an emitted payload, `none` for `room-closed`
(whose payload is just the id). -/
def eventPassword : Event → Option String
  | Event.roomCreated p => p.password
  | Event.playerJoined _ p => p.password
  | Event.playerLeft _ p => p.password
  | Event.roomClosed _ => none

/-- Recognizer for `player-left` emissions. -/
def isPlayerLeft : Event → Bool
  | Event.playerLeft _ _ => true
  | _ => false

/-- Recognizer for `room-created` emissions. -/
def isRoomCreated : Event → Bool
  | Event.roomCreated _ => true
  | _ => false

/-- Placeholder room for total projections out of `Option Room`. -/
def defaultRoom : Room :=
  { id := 0, name := "", host := "", players := [], maxPlayers := 0,
    isPublic := true, password := none, status := RoomStatus.waiting,
    createdAt := 0 }

/-- Placeholder player for total projections out of lists of players. -/
def defaultPlayer : Player :=
  { userId := "", playerName := "", characterClass := "", level := 0,
    joinedAt := 0 }

/-- Three registered users for the concrete scenarios. -/
def users0 : List JsUser :=
  [{ id := "u1", username := "alice" },
   { id := "u2", username := "bob" },
   { id := "u3", username := "carol" }]

/-- A create body with a room password and every optional field absent. -/
def secretBody : CreateBody :=
  { name := "Warriors", maxPlayers := none, isPublic := none,
    password := some "secret", playerName := none, characterClass := none,
    level := none }

/-- A create body supplying `maxPlayers = -1`. -/
def negBody : CreateBody :=
  { name := "Room", maxPlayers := some (-1), isPublic := none,
    password := none, playerName := none, characterClass := none,
    level := none }

/-- A create body supplying `isPublic = false`. -/
def privBody : CreateBody :=
  { name := "Hidden", maxPlayers := none, isPublic := some false,
    password := none, playerName := none, characterClass := none,
    level := none }

/-- A create body with an empty name. -/
def emptyNameBody : CreateBody :=
  { name := "", maxPlayers := none, isPublic := none, password := none,
    playerName := none, characterClass := none, level := none }

/-- A create body for a single-slot room. -/
def tinyBody : CreateBody :=
  { name := "Tiny", maxPlayers := some 1, isPublic := none, password := none,
    playerName := none, characterClass := none, level := none }

/-- A create body supplying `maxPlayers = 0` and omitting the rest. -/
def zeroBody : CreateBody :=
  { name := "Zero", maxPlayers := some 0, isPublic := none, password := none,
    playerName := none, characterClass := none, level := none }

/-- A create body supplying an empty-string room password. -/
def emptyPwBody : CreateBody :=
  { name := "Open", maxPlayers := none, isPublic := none,
    password := some "", playerName := none, characterClass := none,
    level := none }

/-- A create body with no password at all. -/
def openBody : CreateBody :=
  { name := "Lobby", maxPlayers := none, isPublic := none, password := none,
    playerName := none, characterClass := none, level := none }

/-- u1 creates a password-protected room, u2 joins it. -/
def ops2 : List Op :=
  [Op.create "u1" secretBody, Op.join "u2" 0 "Bob" none none (some "secret")]

/-- The state after `ops2`: one room, members u1 (host) and u2. -/
def leakState : ServerState := run users0 ops2

/-- The room document stored after `ops2`. -/
def roomA : Room := (findRoom leakState 0).getD defaultRoom

/-- The members of `roomA` surviving a leave by u1. -/
def survA : List Player := roomA.players.filter (fun p => p.userId != "u1")

/-- The earliest-joined survivor of `survA`. -/
def firstA : Player := survA.headD defaultPlayer

/-- The state after u1 creates a single-slot room. -/
def st5 : ServerState := run users0 [Op.create "u1" tinyBody]

/-- The single-slot room stored in `st5`. -/
def r5 : Room := (findRoom st5 0).getD defaultRoom

/-- The state after u1 creates a room alone. -/
def st6 : ServerState := run users0 [Op.create "u1" secretBody]

/-- The room stored in `st6`. -/
def r6 : Room := (findRoom st6 0).getD defaultRoom

/-- The sole member of `r6`. -/
def p6 : Player := r6.players.headD defaultPlayer

/-- The state after u1 creates a passwordless room. -/
def st10 : ServerState := run users0 [Op.create "u1" openBody]

/-- The passwordless room stored in `st10`. -/
def r10 : Room := (findRoom st10 0).getD defaultRoom

/-! ### The claims -/

/-- C1: the claim that no client-facing payload ever contains the room's
`password` fails at the `player-left` broadcast.  The leave route emits the
raw room document without the `-password` projection used everywhere else,
so in the concrete scenario where u1 creates a room with password
"secret", u2 joins, and u1 then leaves, the leave emits exactly one event,
it is a `player-left`, and its payload still carries
`password = some "secret"`. -/
theorem playerLeft_broadcast_contains_password :
    (leaveRoom leakState "u1" 0).2.1.map eventPassword = [some "secret"] ∧
    (leaveRoom leakState "u1" 0).2.1.all isPlayerLeft = true := by
  decide

/-- C2, counterexample: the create route never validates `maxPlayers`,
so creating a room with `maxPlayers = -1` registers a room whose single
member already exceeds the capacity bound, refuting
`players.length ≤ maxPlayers` as an unconditional registry invariant. -/
theorem createNegative_capacity_violated :
    (run users0 [Op.create "u1" negBody]).rooms.map
        (fun r => ((r.players.length : Int), r.maxPlayers)) = [(1, -1)] ∧
    ¬ ((1 : Int) ≤ -1) := by
  decide

/-- C2 (amended): along every operation sequence whose create actions have
effective capacity `maxPlayers || 4 ≥ 1` (the route itself never rejects a
bad `maxPlayers`), every room in the registry satisfies
`1 ≤ players.length`, `players.length ≤ maxPlayers`, and its host is the
`userId` of one of its players; create, join and leave all preserve this. -/
theorem roomInvariant_reachable (users : List JsUser) (ops : List Op)
    (hops : ∀ op ∈ ops, opCapOK op = true) :
    ∀ r ∈ (run users ops).rooms,
      1 ≤ r.players.length ∧ (r.players.length : Int) ≤ r.maxPlayers ∧
      ∃ p ∈ r.players, p.userId = r.host := by
  intro r hr
  obtain ⟨h1, h2, -, -⟩ := stateWF_run users ops r hr
  exact ⟨List.length_pos.mpr h1, stateCap_run users ops hops r hr, h2⟩

/-- Witness for C2 at the concrete two-member room of `ops2`. -/
theorem roomInvariant_reachable_witness :
    1 ≤ roomA.players.length ∧
    (roomA.players.length : Int) ≤ roomA.maxPlayers ∧
    ∃ p ∈ roomA.players, p.userId = roomA.host :=
  roomInvariant_reachable users0 ops2 (by decide) roomA (by decide)

/-- C3: for any reachable state, when the current host leaves a room in
which at least one member survives, the route reassigns the host to
`players[0]` of the filtered array; because reachable rooms keep `players`
in strictly increasing `joinedAt` order, that survivor is exactly the
remaining member with the earliest `joinedAt`, and the outcome is a
deterministic function of the state. -/
theorem leave_host_fifo (users : List JsUser) (ops : List Op) (uid : String)
    (rid : Nat) (r : Room) (first : Player) (rest : List Player)
    (hfind : findRoom (run users ops) rid = some r) (hhost : r.host = uid)
    (hsurv : r.players.filter (fun p => p.userId != uid) = first :: rest) :
    (∀ m ∈ r.players.filter (fun p => p.userId != uid),
        first.joinedAt ≤ m.joinedAt) ∧
    ∃ r2, findRoom (leaveRoom (run users ops) uid rid).1 rid = some r2 ∧
      r2.host = first.userId ∧ r2.players = first :: rest := by
  have hfind2 : (run users ops).rooms.find? (fun x => x.id == rid) = some r :=
    hfind
  have hrm : r ∈ (run users ops).rooms := List.mem_of_find?_eq_some hfind2
  obtain ⟨-, -, h3, -⟩ := stateWF_run users ops r hrm
  have hps : (first :: rest).Pairwise (fun p q => p.joinedAt < q.joinedAt) := by
    rw [← hsurv]
    exact h3.sublist (List.filter_sublist _)
  constructor
  · intro m hm
    rw [hsurv] at hm
    rcases List.mem_cons.mp hm with rfl | hm2
    · exact Nat.le_refl _
    · exact Nat.le_of_lt ((List.pairwise_cons.mp hps).1 m hm2)
  · have hid0 := List.find?_some hfind2
    have hid : (r.id == rid) = true := hid0
    have hhbeq : (r.host == uid) = true := by
      rw [hhost]
      exact beq_self_eq_true uid
    unfold leaveRoom
    rw [hfind]
    dsimp only
    rw [hsurv]
    dsimp only
    refine ⟨{ r with
                players := first :: rest,
                host := if r.host == uid then first.userId else r.host },
            ?_, ?_, rfl⟩
    · exact find?_map_update _ rid _ (by simpa using hid) r hfind2
    · dsimp only
      rw [if_pos hhbeq]

/-- Witness for C3: in the two-member room of `ops2` the host u1 leaves and
the earliest-joined survivor (u2) becomes host. -/
theorem leave_host_fifo_witness :
    ∃ r2, findRoom (leaveRoom (run users0 ops2) "u1" 0).1 0 = some r2 ∧
      r2.host = firstA.userId ∧ r2.players = firstA :: survA.tail :=
  (leave_host_fifo users0 ops2 "u1" 0 roomA firstA survA.tail
    (by decide) (by decide) (by decide)).2

/-- C4, counterexample: a create request with `maxPlayers = -1 < 1` is not
rejected; it succeeds and registers a room, refuting the claim that such
requests fail with a ValidationError and leave the registry unchanged. -/
theorem createNegativeMax_succeeds :
    negBody.maxPlayers = some (-1) ∧
    respOk (createRoom users0 initState "u1" negBody).2.2 = true ∧
    (createRoom users0 initState "u1" negBody).1.rooms.length = 1 := by
  decide

/-- C4 (amended): the create route validates only `name`: an empty name
fails with a ValidationError and changes nothing, while any non-empty name
(for a registered user) succeeds and appends exactly one room whose
capacity is the unvalidated `maxPlayers || 4` — `maxPlayers < 1` is never
rejected. -/
theorem create_validates_only_name (users : List JsUser) (st : ServerState)
    (uid : String) (b : CreateBody) (u : JsUser)
    (hu : users.find? (fun x => x.id == uid) = some u) :
    (b.name = "" →
      createRoom users st uid b =
        (st, [], Except.error ApiError.validationError)) ∧
    (b.name ≠ "" →
      ∃ stored, (createRoom users st uid b).1.rooms = st.rooms ++ [stored] ∧
        stored.maxPlayers = jsOrInt b.maxPlayers 4 ∧
        respOk (createRoom users st uid b).2.2 = true) := by
  constructor
  · intro hname
    unfold createRoom
    rw [if_pos hname]
  · intro hname
    unfold createRoom
    rw [if_neg hname, hu]
    dsimp only
    exact ⟨_, rfl, rfl, rfl⟩

/-- Witness for C4: the empty name fails while the `maxPlayers = -1`
request succeeds. -/
theorem create_validates_only_name_witness :
    (createRoom users0 initState "u1" emptyNameBody =
      (initState, [], Except.error ApiError.validationError)) ∧
    (∃ stored, (createRoom users0 initState "u1" negBody).1.rooms =
        initState.rooms ++ [stored] ∧
      stored.maxPlayers = jsOrInt negBody.maxPlayers 4 ∧
      respOk (createRoom users0 initState "u1" negBody).2.2 = true) :=
  ⟨(create_validates_only_name users0 initState "u1" emptyNameBody
      { id := "u1", username := "alice" } (by decide)).1 rfl,
   (create_validates_only_name users0 initState "u1" negBody
      { id := "u1", username := "alice" } (by decide)).2 (by decide)⟩

/-- C5: a join aimed at an existing waiting room that is already at (or
over) capacity fails with RoomFull, emits nothing, and returns the state
completely unchanged. -/
theorem join_full_roomFull (st : ServerState) (uid : String) (rid : Nat)
    (pn : String) (cc : Option String) (lv : Option Int) (pw : Option String)
    (r : Room) (hpn : pn ≠ "") (hfind : findRoom st rid = some r)
    (hst : r.status = RoomStatus.waiting)
    (hfull : (r.players.length : Int) ≥ r.maxPlayers) :
    joinRoom st uid rid pn cc lv pw =
      (st, [], Except.error ApiError.roomFull) := by
  unfold joinRoom
  rw [if_neg hpn, hfind]
  dsimp only
  rw [if_neg (show ¬(r.status ≠ RoomStatus.waiting) from fun h => h hst),
      if_pos hfull]

/-- Witness for C5: u2 cannot join the full single-slot room of `st5`. -/
theorem join_full_roomFull_witness :
    joinRoom st5 "u2" 0 "Bob" none none none =
      (st5, [], Except.error ApiError.roomFull) :=
  join_full_roomFull st5 "u2" 0 "Bob" none none none r5
    (by decide) (by decide) (by decide) (by decide)

/-- C6: when the sole member of a room leaves, the room is deleted from the
registry, exactly one global `room-closed` event carrying the room id is
emitted, and a subsequent lookup (and hence a subsequent leave) of that id
fails with NotFound. -/
theorem leave_sole_member_closes (st : ServerState) (uid : String)
    (rid : Nat) (r : Room) (p : Player) (hfind : findRoom st rid = some r)
    (hp : r.players = [p]) (hpu : p.userId = uid) :
    ∃ st2, leaveRoom st uid rid = (st2, [Event.roomClosed rid], Except.ok ()) ∧
      findRoom st2 rid = none ∧
      (leaveRoom st2 uid rid).2.2 = Except.error ApiError.notFound := by
  have hfilter : r.players.filter (fun q => q.userId != uid) = [] := by
    rw [hp]
    simp [List.filter, hpu]
  have hmain : leaveRoom st uid rid =
      ({ st with
          rooms := st.rooms.filter (fun x => x.id != rid),
          clock := st.clock + 1 },
       [Event.roomClosed rid], Except.ok ()) := by
    unfold leaveRoom
    rw [hfind]
    dsimp only
    rw [hfilter]
  have hnone : findRoom
      { st with
          rooms := st.rooms.filter (fun x => x.id != rid),
          clock := st.clock + 1 } rid = none := by
    unfold findRoom
    dsimp only
    rw [List.find?_eq_none]
    intro a ha
    have h2 := (List.mem_filter.mp ha).2
    simpa using h2
  have hsecond : (leaveRoom
      { st with
          rooms := st.rooms.filter (fun x => x.id != rid),
          clock := st.clock + 1 } uid rid).2.2 =
        Except.error ApiError.notFound := by
    unfold leaveRoom
    rw [hnone]
  exact ⟨_, hmain, hnone, hsecond⟩

/-- Witness for C6: u1, sole member of the room of `st6`, leaves it. -/
theorem leave_sole_member_closes_witness :
    ∃ st2, leaveRoom st6 "u1" 0 = (st2, [Event.roomClosed 0], Except.ok ()) ∧
      findRoom st2 0 = none ∧
      (leaveRoom st2 "u1" 0).2.2 = Except.error ApiError.notFound :=
  leave_sole_member_closes st6 "u1" 0 r6 p6 (by decide) (by decide)
    (by decide)

/-- C7, counterexample: `io.emit(room-created, ...)` is unconditional, so
creating a room with `isPublic = false` still broadcasts a `room-created`
snapshot to all clients, refuting the claimed equivalence with
`isPublic = true`. -/
theorem createPrivate_broadcasts :
    respOk (createRoom users0 initState "u1" privBody).2.2 = true ∧
    (createRoom users0 initState "u1" privBody).1.rooms.all
        (fun r => r.isPublic == false) = true ∧
    (createRoom users0 initState "u1" privBody).2.1.all isRoomCreated = true ∧
    (createRoom users0 initState "u1" privBody).2.1.length = 1 := by
  decide

/-- C7 (amended): every successful create broadcasts exactly one
`room-created` event carrying the password-stripped snapshot it also
returns, regardless of the room's visibility. -/
theorem create_broadcast_unconditional (users : List JsUser)
    (st : ServerState) (uid : String) (b : CreateBody) (room : Room)
    (hok : (createRoom users st uid b).2.2 = Except.ok room) :
    (createRoom users st uid b).2.1 = [Event.roomCreated room] := by
  unfold createRoom at hok ⊢
  by_cases hname : b.name = ""
  · rw [if_pos hname] at hok
    simp at hok
  · rw [if_neg hname] at hok ⊢
    cases hu : users.find? (fun x => x.id == uid) with
    | none =>
      rw [hu] at hok
      simp at hok
    | some user =>
      rw [hu] at hok
      dsimp only at hok ⊢
      cases hok
      rfl

/-- Witness for C7: the private-room create of `privBody`. -/
theorem create_broadcast_unconditional_witness :
    (createRoom users0 initState "u1" privBody).2.1 =
      [Event.roomCreated
        ((createRoom users0 initState "u1" privBody).2.2.toOption.getD
          defaultRoom)] :=
  create_broadcast_unconditional users0 initState "u1" privBody
    ((createRoom users0 initState "u1" privBody).2.2.toOption.getD defaultRoom)
    (by rfl)

/-- C9: the falsy defaulting of the create route: an absent `maxPlayers`
and an explicit `0` both become 4, `isPublic` is true unless the request
supplies exactly `false`, and the seeded creator member falls back to
characterClass "Warrior", level 1, and the account username as player
name when those fields are omitted. -/
theorem create_defaults (users : List JsUser) (st : ServerState)
    (uid : String) (b : CreateBody) (u : JsUser)
    (hu : users.find? (fun x => x.id == uid) = some u) (hname : b.name ≠ "") :
    ∃ stored creator,
      (createRoom users st uid b).1.rooms = st.rooms ++ [stored] ∧
      stored.players = [creator] ∧
      ((b.maxPlayers = none ∨ b.maxPlayers = some 0) →
        stored.maxPlayers = 4) ∧
      (stored.isPublic = true ↔ b.isPublic ≠ some false) ∧
      creator.userId = uid ∧
      (b.characterClass = none → creator.characterClass = "Warrior") ∧
      (b.level = none → creator.level = 1) ∧
      (b.playerName = none → creator.playerName = u.username) := by
  unfold createRoom
  rw [if_neg hname, hu]
  dsimp only
  refine ⟨_, _, rfl, rfl, ?_, ?_, rfl, ?_, ?_, ?_⟩
  · intro h
    rcases h with h | h <;> simp [jsOrInt, h]
  · simp [bne]
  · intro h
    simp [jsOrStr, h]
  · intro h
    simp [jsOrInt, h]
  · intro h
    simp [jsOrStr, h]

/-- Witness for C9 at `zeroBody` (`maxPlayers = 0`, every other optional
field omitted). -/
theorem create_defaults_witness :
    ∃ stored creator,
      (createRoom users0 initState "u1" zeroBody).1.rooms =
        initState.rooms ++ [stored] ∧
      stored.players = [creator] ∧
      ((zeroBody.maxPlayers = none ∨ zeroBody.maxPlayers = some 0) →
        stored.maxPlayers = 4) ∧
      (stored.isPublic = true ↔ zeroBody.isPublic ≠ some false) ∧
      creator.userId = "u1" ∧
      (zeroBody.characterClass = none → creator.characterClass = "Warrior") ∧
      (zeroBody.level = none → creator.level = 1) ∧
      (zeroBody.playerName = none → creator.playerName = "alice") :=
  create_defaults users0 initState "u1" zeroBody
    { id := "u1", username := "alice" } (by decide) (by decide)

/-- C10: an empty-string create password is stored as no password at all,
and the join gate skips the Unauthorized check whenever the stored
password is absent or empty, accepting the join for every supplied
password (including none) when the other join preconditions hold. -/
theorem passwordless_room_join :
    (∀ (users : List JsUser) (st : ServerState) (uid : String)
        (b : CreateBody) (u : JsUser),
      users.find? (fun x => x.id == uid) = some u → b.name ≠ "" →
      b.password = some "" →
      ∃ stored, (createRoom users st uid b).1.rooms = st.rooms ++ [stored] ∧
        stored.password = none) ∧
    (∀ (st : ServerState) (uid : String) (rid : Nat) (pn : String)
        (cc : Option String) (lv : Option Int) (pw : Option String)
        (r : Room),
      pn ≠ "" → findRoom st rid = some r →
      (r.password = none ∨ r.password = some "") →
      r.status = RoomStatus.waiting →
      (r.players.length : Int) < r.maxPlayers →
      (∀ p ∈ r.players, p.userId ≠ uid) →
      respOk (joinRoom st uid rid pn cc lv pw).2.2 = true) := by
  constructor
  · intro users st uid b u hu hname hpw
    unfold createRoom
    rw [if_neg hname, hu]
    dsimp only
    exact ⟨_, rfl, by simp [jsTruthyStr, hpw]⟩
  · intro st uid rid pn cc lv pw r hpn hfind hpass hst hnotfull hnotin
    have hnblock : roomPasswordBlocks r.password pw = false := by
      rcases hpass with h | h <;> simp [roomPasswordBlocks, h]
    have hnany : r.players.any (fun p => p.userId == uid) = false := by
      rw [List.any_eq_false]
      intro p hp
      simpa using hnotin p hp
    unfold joinRoom
    rw [if_neg hpn, hfind]
    dsimp only
    rw [if_neg (show ¬(r.status ≠ RoomStatus.waiting) from fun h => h hst),
        if_neg (not_le.mpr hnotfull),
        if_neg (show ¬(roomPasswordBlocks r.password pw = true) from by
          rw [hnblock]; exact Bool.false_ne_true),
        if_neg (show ¬(r.players.any (fun p => p.userId == uid) = true) from by
          rw [hnany]; exact Bool.false_ne_true)]
    rfl

/-- Witness for C10: an empty-string password room stores none, and u2
joins the passwordless room of `st10` while supplying a wrong password. -/
theorem passwordless_room_join_witness :
    (∃ stored, (createRoom users0 initState "u1" emptyPwBody).1.rooms =
        initState.rooms ++ [stored] ∧ stored.password = none) ∧
    respOk (joinRoom st10 "u2" 0 "Bob" none none (some "wrong")).2.2 = true :=
  ⟨passwordless_room_join.1 users0 initState "u1" emptyPwBody
      { id := "u1", username := "alice" } (by decide) (by decide) rfl,
   passwordless_room_join.2 st10 "u2" 0 "Bob" none none (some "wrong") r10
      (by decide) (by decide) (Or.inl (by decide)) (by decide) (by decide)
      (by decide)⟩

end DiabloWeb
